import Mathlib

/-!
Verification of the scoring/aggregation engine of `breach_finder.py`
(OSINT Breach & Credential Exposure Tracker).

The Python program is shallowly embedded: a pandas DataFrame of breach
records becomes a `List Row`; timestamps become integer day numbers
(`pd.NaT` becomes `none`); pandas / Python string primitives
(`str.lower`, `str.endswith`, `in`, `str.strip`, `str.split`) are
modelled character-by-character over `List Char`, restricted to the
ASCII text the tool manipulates.
-/

/-- Python `str.lower` on one ASCII character. -/
def lowerChar (c : Char) : Char :=
  if 'A' ≤ c ∧ c ≤ 'Z' then Char.ofNat (c.toNat + 32) else c

/-- Python `str.lower` over the characters of a string. -/
def lowerStr (s : List Char) : List Char := s.map lowerChar

/-- `lowerStr`, packaged back into `String`. -/
def strLower (s : String) : String := ⟨lowerStr s.data⟩

/-- Does `s` start with `t`?  (Helper for Python `str.endswith` / `in`.) -/
def startsWithL : List Char → List Char → Bool
  | _, [] => true
  | [], _ :: _ => false
  | a :: s, b :: t => a == b && startsWithL s t

/-- Python substring containment `t in s`. -/
def containsSubL : List Char → List Char → Bool
  | [], t => t.isEmpty
  | a :: s, t => startsWithL (a :: s) t || containsSubL s t

/-- Python `s.endswith(t)`. -/
def endsWithL (s t : List Char) : Bool :=
  startsWithL s.reverse t.reverse

/-- Characters removed by Python `str.strip()` with no argument. -/
def isPySpace (c : Char) : Bool :=
  c == ' ' || c == '\t' || c == '\n' || c == '\r' || c == '\x0b' || c == '\x0c'

/-- Python `str.strip()` over characters. -/
def stripL (s : List Char) : List Char :=
  ((s.dropWhile isPySpace).reverse.dropWhile isPySpace).reverse

/-- Python `line.strip()`. -/
def stripStr (s : String) : String := ⟨stripL s.data⟩

/-- Python string `<=` (code-point lexicographic), as used by `sorted`. -/
def strLeL : List Char → List Char → Bool
  | [], _ => true
  | _ :: _, [] => false
  | a :: s, b :: t =>
    if a.toNat < b.toNat then true
    else if b.toNat < a.toNat then false
    else strLeL s t

/-- The ordering `sorted` uses on Python strings. -/
def pyStrLe (a b : String) : Prop := strLeL a.data b.data = true

instance : DecidableRel pyStrLe :=
  fun a b => inferInstanceAs (Decidable (strLeL a.data b.data = true))

/-- Keep the first occurrence of each element, scanning left to right with
the already-seen elements in `seen` (pandas `drop_duplicates` / building a
Python `set`). -/
def dedupFirstAux {α : Type} [DecidableEq α] (seen : List α) : List α → List α
  | [] => []
  | a :: l => if a ∈ seen then dedupFirstAux seen l else a :: dedupFirstAux (a :: seen) l

/-- Deduplicate a list keeping first occurrences, in order. -/
def dedupFirst {α : Type} [DecidableEq α] (l : List α) : List α :=
  dedupFirstAux [] l

/-- One row of the breach dataset after loading (`email`, `source`,
`breach_date`, `compromised_data`, optional `password_hash`).  A
`breach_date` of `none` models pandas `NaT`; a known date is its integer
day number. -/
structure Row where
  email : String
  source : String
  breach_date : Option Int
  compromised_data : String
  password_hash : Option String := none
deriving DecidableEq

/-- `severity_for_row` (src/breach_finder.py:94-121) with the value that the
Python code reads from `pd.Timestamp.now()` passed in as the integer day
number `now`; `(pd.Timestamp.now() - row["breach_date"]).days` is then
`now - d`. -/
def severity_for_row (row : Row) (now : Int) : Int :=
  let sev : Int := 0
  let sev : Int :=
    match row.breach_date with
    | none => sev
    | some d =>
      let years : ℚ := ((now - d : Int) : ℚ) / 365.25
      if years < 1 then sev + 2 else if years < 3 then sev + 1 else sev
  let dt := lowerStr row.compromised_data.data
  let sev := if ["password", "pwd", "hash"].any (fun k => containsSubL dt k.data) then sev + 3 else sev
  let sev := if ["email", "username"].any (fun k => containsSubL dt k.data) then sev + 1 else sev
  let sev := if ["phone", "address", "dob"].any (fun k => containsSubL dt k.data) then sev + 1 else sev
  min sev 5

/-- `risk_band` (src/breach_finder.py:123-131). -/
def risk_band (score : ℚ) : String :=
  if score ≥ 4 then "High"
  else if score ≥ 2.5 then "Medium"
  else "Low"

/-- `filter_by_domain` (src/breach_finder.py:80-85). -/
def filter_by_domain (df : List Row) (domain : String) : List Row :=
  df.filter (fun r => endsWithL (lowerStr r.email.data) ('@' :: lowerStr domain.data))

/-- `filter_by_emails` (src/breach_finder.py:87-92). -/
def filter_by_emails (df : List Row) (emails : List String) : List Row :=
  let emails_lower := emails.map (fun e => lowerStr e.data)
  df.filter (fun r => emails_lower.contains (lowerStr r.email.data))

/-- `read_emails_file` (src/breach_finder.py:66-78), applied to the lines of
the file: strip each line, keep it when it is non-empty and contains `@`,
then `sorted(set(...))`. -/
def read_emails_file (lines : List String) : List String :=
  let emails := (lines.map stripStr).filter (fun e => !e.data.isEmpty && e.data.contains '@')
  List.insertionSort pyStrLe (dedupFirst emails)

/-- Mathematical floor of a rational, computed from numerator and
denominator (the denominator of a `Rat` is positive). -/
def ratFloor (q : ℚ) : Int := Int.fdiv q.num q.den

/-- Round to the nearest integer, halves to even — the behaviour of
Python's builtin `round` on the exact values that arise here. -/
def roundHalfEven (q : ℚ) : Int :=
  let f := ratFloor q
  let r := q - (f : ℚ)
  if r < 1/2 then f
  else if r > 1/2 then f + 1
  else if f % 2 = 0 then f else f + 1

/-- Python `round(x, 2)` on the rational model of the score. -/
def round2 (q : ℚ) : ℚ := ((roundHalfEven (q * 100) : Int) : ℚ) / 100

/-- Python `" | ".join(strings)`. -/
def joinSep (sep : String) : List String → String
  | [] => ""
  | [s] => s
  | s :: rest => s ++ sep ++ joinSep sep rest

/-- Python `s.split(sep)` for a one-character separator: every occurrence
splits, empty pieces are kept. -/
def splitOnCharAux (sep : Char) : List Char → List Char → List (List Char)
  | [], acc => [acc.reverse]
  | c :: rest, acc =>
    if c == sep then acc.reverse :: splitOnCharAux sep rest []
    else splitOnCharAux sep rest (c :: acc)

/-- The `compromised_data_top` computation of `summarize`
(src/breach_finder.py:168): join the group's `compromised_data` texts with
`" | "`, split on `"|"`, strip each token, rank tokens by frequency
(`value_counts`, descending, first-seen order on ties) and keep the top 5. -/
def topTokens (entries : List String) : List String :=
  let toks := (splitOnCharAux '|' (joinSep " | " entries).data []).map
    (fun t => (⟨stripL t⟩ : String))
  let counted := (dedupFirst toks).map (fun t => (t, toks.count t))
  ((List.insertionSort (fun a b : String × Nat => b.2 ≤ a.2) counted).take 5).map (fun p => p.1)

/-- One entry of the `breaches` list built by `summarize`
(src/breach_finder.py:160-169).  `latest_breach_date` is `none` when every
date in the group is `NaT`; `avg_severity` is the group's mean severity
rounded to 2 decimals, while `risk_band` is taken of the unrounded mean. -/
structure BreachAgg where
  source : String
  records : Nat
  unique_emails : Nat
  latest_breach_date : Option Int
  avg_severity : ℚ
  risk_band : String
  compromised_data_top : List String
deriving DecidableEq

/-- The summary dict built by `summarize` (src/breach_finder.py:133-182).
Python dict keys that are absent on the empty-input path are modelled with
`Option`: `generated_at` and `distinct_breaches` are `none` exactly when
the corresponding keys are missing from the returned dict. -/
structure Summary where
  generated_at : Option String
  total_exposed_accounts : Nat
  unique_emails : Nat
  distinct_breaches : Option Nat
  risk_score : ℚ
  risk_band : String
  breaches : List BreachAgg
deriving DecidableEq

/-- `df.groupby("source")` with pandas defaults: group keys sorted
ascending, each group keeping the dataframe's row order. -/
def groupBySource (df : List Row) : List (String × List Row) :=
  let keys := List.insertionSort pyStrLe (dedupFirst (df.map (fun r => r.source)))
  keys.map (fun k => (k, df.filter (fun r => r.source == k)))

/-- The sort key of `summarize`'s `sorted(per_breach, key=lambda x:
(-x["avg_severity"], -x["records"]))`: `a` may come before `b` iff `a`'s
(already rounded) average severity is higher, or equal with at least as
many records. -/
def breachRel (a b : BreachAgg) : Prop :=
  b.avg_severity < a.avg_severity ∨ (a.avg_severity = b.avg_severity ∧ b.records ≤ a.records)

instance : DecidableRel breachRel :=
  fun _ _ => inferInstanceAs (Decidable (_ ∨ _))

/-- `summarize` (src/breach_finder.py:133-182).  The Python code computes
severities with the ambient clock and stamps `generated_at` from
`datetime.utcnow()`; both ambient reads are threaded in explicitly: `now`
is the clock value used for scoring, `nowIso` the rendered ISO timestamp. -/
def summarize (df : List Row) (now : Int) (nowIso : String) : Summary :=
  if df = [] then
    { generated_at := none
      total_exposed_accounts := 0
      unique_emails := 0
      distinct_breaches := none
      risk_score := 0
      risk_band := "Low"
      breaches := [] }
  else
    let sevs := df.map (fun r => severity_for_row r now)
    let per_breach := (groupBySource df).map (fun sg =>
      let g := sg.2
      let gsevs := g.map (fun r => severity_for_row r now)
      let sev_avg : ℚ := (gsevs.sum : ℚ) / (g.length : ℚ)
      { source := sg.1
        records := g.length
        unique_emails := (dedupFirst (g.map (fun r => r.email))).length
        latest_breach_date := (g.filterMap (fun r => r.breach_date)).max?
        avg_severity := round2 sev_avg
        risk_band := risk_band sev_avg
        compromised_data_top := topTokens (g.map (fun r => r.compromised_data)) })
    let overall_score : ℚ := (sevs.sum : ℚ) / (df.length : ℚ)
    { generated_at := some nowIso
      total_exposed_accounts := df.length
      unique_emails := (dedupFirst (df.map (fun r => r.email))).length
      distinct_breaches := some (dedupFirst (df.map (fun r => r.source))).length
      risk_score := round2 overall_score
      risk_band := risk_band overall_score
      breaches := List.insertionSort breachRel per_breach }

/-- The selection logic of `main` (src/breach_finder.py:274-290): start
from an empty match set, append the domain matches when `--domain` is
given, append the email-list matches when `--emails` is given, then
`drop_duplicates` (full-row equality, first occurrence kept). -/
def select_matches (df : List Row) (domain : Option String) (emailLines : Option (List String)) :
    List Row :=
  let s1 := match domain with
    | none => []
    | some d => filter_by_domain df d
  let s2 := match emailLines with
    | none => []
    | some lines => filter_by_emails df (read_emails_file lines)
  dedupFirst (s1 ++ s2)

/-- One raw CSV row prior to date parsing.  Cell values are recorded under
the canonical lower-case column names that `load_offline_dataset`
normalizes to; the raw `breach_date` cell is kept as text. -/
structure RawRow where
  email : String
  source : String
  breach_date : String
  compromised_data : String
  password_hash : Option String := none

/-- The header and data of the CSV file as `pd.read_csv` delivers it when
the file exists. -/
structure RawCSV where
  columns : List String
  rows : List RawRow

/-- The two fatal errors of `load_offline_dataset`:
`FileNotFoundError` (the spec's `DatasetNotFound`) and the `ValueError`
naming missing columns (the spec's `SchemaError`). -/
inductive LoadError where
  | datasetNotFound : LoadError
  | schemaError : List String → LoadError
deriving DecidableEq

/-- The required columns of the offline CSV. -/
def requiredColumns : List String := ["email", "source", "breach_date", "compromised_data"]

/-- The required columns absent from the CSV header, compared
case-insensitively (src/breach_finder.py:51-52). -/
def missingColumns (csv : RawCSV) : List String :=
  requiredColumns.filter (fun c => !(csv.columns.map strLower).contains c)

/-- `load_offline_dataset` (src/breach_finder.py:39-64).  `fs` is `none`
when `os.path.exists(path)` is false; `parseDate` models
`pd.to_datetime(.., errors="coerce")` — a total parse returning `none`
(`NaT`, the "unknown" date) on empty or unparseable text. -/
def load_offline_dataset (fs : Option RawCSV) (parseDate : String → Option Int) :
    Except LoadError (List Row) :=
  match fs with
  | none => .error .datasetNotFound
  | some csv =>
    if missingColumns csv ≠ [] then .error (.schemaError (missingColumns csv))
    else .ok (csv.rows.map (fun r =>
      { email := r.email
        source := r.source
        breach_date := parseDate r.breach_date
        compromised_data := r.compromised_data
        password_hash := r.password_hash }))

/-- Membership in `dedupFirstAux`: the kept elements are exactly those of
the input not already seen. -/
theorem mem_dedupFirstAux {α : Type} [DecidableEq α] (seen l : List α) (x : α) :
    x ∈ dedupFirstAux seen l ↔ x ∈ l ∧ x ∉ seen := by
  induction l generalizing seen with
  | nil => simp [dedupFirstAux]
  | cons a l ih =>
    by_cases h : a ∈ seen
    · rw [dedupFirstAux, if_pos h, ih]
      simp only [List.mem_cons]
      constructor
      · rintro ⟨hx, hs⟩
        exact ⟨Or.inr hx, hs⟩
      · rintro ⟨hx | hx, hs⟩
        · exact absurd (hx ▸ h) hs
        · exact ⟨hx, hs⟩
    · rw [dedupFirstAux, if_neg h]
      simp only [List.mem_cons, ih (a :: seen)]
      by_cases hxa : x = a
      · subst hxa
        simp [h]
      · simp [hxa]

/-- `dedupFirstAux` never produces duplicates. -/
theorem nodup_dedupFirstAux {α : Type} [DecidableEq α] (seen l : List α) :
    (dedupFirstAux seen l).Nodup := by
  induction l generalizing seen with
  | nil => simp [dedupFirstAux]
  | cons a l ih =>
    by_cases h : a ∈ seen
    · rw [dedupFirstAux, if_pos h]
      exact ih seen
    · rw [dedupFirstAux, if_neg h]
      refine List.nodup_cons.mpr ⟨fun hmem => ?_, ih (a :: seen)⟩
      exact ((mem_dedupFirstAux _ _ _).mp hmem).2 (List.mem_cons_self a seen)

/-- `dedupFirst` keeps exactly the elements of the input. -/
theorem mem_dedupFirst {α : Type} [DecidableEq α] (l : List α) (x : α) :
    x ∈ dedupFirst l ↔ x ∈ l := by
  simp [dedupFirst, mem_dedupFirstAux]

/-- `dedupFirst` produces a duplicate-free list. -/
theorem nodup_dedupFirst {α : Type} [DecidableEq α] (l : List α) :
    (dedupFirst l).Nodup :=
  nodup_dedupFirstAux [] l

/-- The recency branch of the code (`if years < 1 ... elif years < 3 ...`)
written as an added bonus with the spec's interval conditions. -/
theorem recency_ite_eq (y : ℚ) (s : Int) :
    (if y < 1 then s + 2 else if y < 3 then s + 1 else s)
      = s + (if y < 1 then 2 else if 1 ≤ y ∧ y < 3 then 1 else 0) := by
  split_ifs with h1 h2 h3 h4
  · omega
  · omega
  · exact absurd ⟨le_of_not_lt h1, h2⟩ h3
  · exact absurd h4.2 h2
  · omega

/-- Modelled from the spec's wording of §4.3 step 2: the recency factor,
`0` for an unknown `breach_date`, else `+2` for age `< 1` year, `+1` for
age in `[1, 3)` years, `+0` for age `≥ 3` years, with age in years
`(now − breach_date) / 365.25` days. -/
def recencyFactorSpec (bd : Option Int) (now : Int) : Int :=
  match bd with
  | none => 0
  | some d =>
    let age : ℚ := ((now - d : Int) : ℚ) / 365.25
    if age < 1 then 2 else if 1 ≤ age ∧ age < 3 then 1 else 0

/-- Modelled from the spec's wording of §4.3 step 3: additive independent
data-sensitivity factors by substring containment in the lower-cased
`compromised_data` text. -/
def sensitivityFactorSpec (txt : String) : Int :=
  let dt := lowerStr txt.data
  (if ["password", "pwd", "hash"].any (fun k => containsSubL dt k.data) then 3 else 0)
    + (if ["email", "username"].any (fun k => containsSubL dt k.data) then 1 else 0)
    + (if ["phone", "address", "dob"].any (fun k => containsSubL dt k.data) then 1 else 0)

/-- Modelled from the spec's wording of §4.3: start at 0, add the recency
factor and the sensitivity factors, cap at 5. -/
def severitySpec (row : Row) (now : Int) : Int :=
  min (recencyFactorSpec row.breach_date now + sensitivityFactorSpec row.compromised_data) 5

/-- C1: for every record, `severity_for_row record now` equals
`min(sum, 5)` where `sum` adds the spec's recency factor (+2 below one
year of age, +1 in `[1,3)`, +0 from 3 years on, 0 when `breach_date` is
unknown) and the three additive data-sensitivity factors (+3 for
password/pwd/hash, +1 for email/username, +1 for phone/address/dob, by
substring containment in the lower-cased `compromised_data`); the result
is always an integer in `[0, 5]`. -/
theorem severity_for_row_spec_and_bounds (row : Row) (now : Int) :
    severity_for_row row now = severitySpec row now ∧
      0 ≤ severity_for_row row now ∧ severity_for_row row now ≤ 5 := by
  obtain ⟨em, src, bd, cd, ph⟩ := row
  cases bd with
  | none =>
    simp only [severity_for_row, severitySpec, recencyFactorSpec, sensitivityFactorSpec]
    split_ifs <;> refine ⟨by omega, by omega, by omega⟩
  | some d =>
    simp only [severity_for_row, severitySpec, recencyFactorSpec, sensitivityFactorSpec,
      recency_ite_eq]
    split_ifs <;> refine ⟨by omega, by omega, by omega⟩

/-- C2: `risk_band` maps every score at or above 4 to "High", every score
in `[2.5, 4)` to "Medium" and every score below 2.5 to "Low"; the three
bands are exhaustive, and the five sample scores of the spec land in the
stated bands. -/
theorem risk_band_partition (s : ℚ) :
    (4 ≤ s → risk_band s = "High") ∧
      (2.5 ≤ s → s < 4 → risk_band s = "Medium") ∧
      (s < 2.5 → risk_band s = "Low") ∧
      (risk_band s = "High" ∨ risk_band s = "Medium" ∨ risk_band s = "Low") ∧
      risk_band 4 = "High" ∧ risk_band 3.99 = "Medium" ∧ risk_band 2.5 = "Medium" ∧
      risk_band 2.49 = "Low" ∧ risk_band 0 = "Low" := by
  refine ⟨fun h4 => ?_, fun h25 h4 => ?_, fun hlow => ?_, ?_, ?_, ?_, ?_, ?_, ?_⟩
  · rw [risk_band, if_pos h4]
  · rw [risk_band, if_neg (by exact fun h => absurd h (not_le.mpr h4)), if_pos h25]
  · rw [risk_band, if_neg (by intro h; exact absurd hlow (not_lt.mpr (by linarith))),
      if_neg (by exact fun h => absurd hlow (not_lt.mpr h))]
  · unfold risk_band
    split_ifs <;> simp
  · norm_num [risk_band]
  · norm_num [risk_band]
  · norm_num [risk_band]
  · norm_num [risk_band]
  · norm_num [risk_band]

/-- Witness for C2: the theorem applied at scores 4, 3 and 0. -/
theorem risk_band_partition_witness :
    risk_band 4 = "High" ∧ risk_band 3 = "Medium" ∧ risk_band 0 = "Low" :=
  ⟨(risk_band_partition 4).1 (by norm_num),
   (risk_band_partition 3).2.1 (by norm_num) (by norm_num),
   (risk_band_partition 0).2.2.1 (by norm_num)⟩

/-- `ratFloor` of an integer is that integer. -/
theorem ratFloor_intCast (n : Int) : ratFloor (n : ℚ) = n := by
  simp [ratFloor, Int.fdiv_one]

/-- `roundHalfEven` of an integer is that integer. -/
theorem roundHalfEven_intCast (n : Int) : roundHalfEven (n : ℚ) = n := by
  simp only [roundHalfEven, ratFloor_intCast]
  norm_num

/-- `round2` of an integer is that integer. -/
theorem round2_intCast (n : Int) : round2 (n : ℚ) = n := by
  unfold round2
  have h : ((n : ℚ) * 100) = ((n * 100 : Int) : ℚ) := by push_cast; ring
  rw [h, roundHalfEven_intCast]
  push_cast
  field_simp

/-- C3 (evidence of the code bug): `summarize` on an empty match set
returns zero counts, an empty breach list, risk score 0 and band "Low",
but the returned dict has no `generated_at` key and no `distinct_breaches`
key — it does not carry the generation timestamp the spec promises. -/
theorem summarize_empty_eval (now : Int) (nowIso : String) :
    summarize [] now nowIso =
      { generated_at := none
        total_exposed_accounts := 0
        unique_emails := 0
        distinct_breaches := none
        risk_score := 0
        risk_band := "Low"
        breaches := [] } := rfl

/-- The record used to exhibit the clock dependence of `severity_for_row`:
a breach dated day 0 with empty `compromised_data`. -/
def clockRow : Row :=
  { email := "user@example.com"
    source := "SourceA"
    breach_date := some 0
    compromised_data := "" }

/-- C4 (evidence of the code bug): the Python `severity_for_row(row)` takes
no `now` argument and reads `pd.Timestamp.now()` at line 105.  Modelling
that ambient reading as the `now` argument, one fixed record scores 2 when
the process clock reads day 100 and 1 when it reads day 600: the score is
a function of the global clock, not of the record alone, so `now` is an
implicit clock read rather than an explicit parameter. -/
theorem severity_reads_ambient_clock :
    severity_for_row clockRow 100 = 2 ∧ severity_for_row clockRow 600 = 1 ∧
      severity_for_row clockRow 100 ≠ severity_for_row clockRow 600 := by
  have hpw : (["password", "pwd", "hash"].any
      (fun k => containsSubL (lowerStr ("" : String).data) k.data)) = false := by decide
  have hem : (["email", "username"].any
      (fun k => containsSubL (lowerStr ("" : String).data) k.data)) = false := by decide
  have hph : (["phone", "address", "dob"].any
      (fun k => containsSubL (lowerStr ("" : String).data) k.data)) = false := by decide
  have h1 : severity_for_row clockRow 100 = 2 := by
    simp only [severity_for_row, clockRow, hpw, hem, hph]
    norm_num [min_def]
  have h2 : severity_for_row clockRow 600 = 1 := by
    simp only [severity_for_row, clockRow, hpw, hem, hph]
    norm_num [min_def]
  exact ⟨h1, h2, by rw [h1, h2]; decide⟩

/-- First record of the spec's §8 worked example: `compromised_data =
"password, email"`, aged half a year at the evaluation time 2000. -/
def specRowA : Row :=
  { email := "a@x.com"
    source := "LeakCo"
    breach_date := some 1817
    compromised_data := "password, email" }

/-- Second record of the worked example: `compromised_data = "phone"`,
aged five years at the evaluation time 2000. -/
def specRowB : Row :=
  { email := "b@x.com"
    source := "LeakCo"
    breach_date := some 174
    compromised_data := "phone" }

/-- The first worked-example record scores `min(2+3+1, 5) = 5`. -/
theorem c5_sevA : severity_for_row specRowA 2000 = 5 := by
  have hpw : (["password", "pwd", "hash"].any
      (fun k => containsSubL (lowerStr ("password, email" : String).data) k.data)) = true := by
    decide
  have hem : (["email", "username"].any
      (fun k => containsSubL (lowerStr ("password, email" : String).data) k.data)) = true := by
    decide
  have hph : (["phone", "address", "dob"].any
      (fun k => containsSubL (lowerStr ("password, email" : String).data) k.data)) = false := by
    decide
  simp only [severity_for_row, specRowA, hpw, hem, hph]
  norm_num [min_def]

/-- The second worked-example record scores `0 + 1 = 1`. -/
theorem c5_sevB : severity_for_row specRowB 2000 = 1 := by
  have hpw : (["password", "pwd", "hash"].any
      (fun k => containsSubL (lowerStr ("phone" : String).data) k.data)) = false := by decide
  have hem : (["email", "username"].any
      (fun k => containsSubL (lowerStr ("phone" : String).data) k.data)) = false := by decide
  have hph : (["phone", "address", "dob"].any
      (fun k => containsSubL (lowerStr ("phone" : String).data) k.data)) = true := by decide
  simp only [severity_for_row, specRowB, hpw, hem, hph]
  norm_num [min_def]

/-- Full evaluation of `summarize` on the worked example. -/
theorem c5_summary_eval :
    (summarize [specRowA, specRowB] 2000 "ts").breaches =
        [{ source := "LeakCo"
           records := 2
           unique_emails := 2
           latest_breach_date := some 1817
           avg_severity := 3
           risk_band := "Medium"
           compromised_data_top := ["password, email", "phone"] }] ∧
      (summarize [specRowA, specRowB] 2000 "ts").risk_score = 3 ∧
      (summarize [specRowA, specRowB] 2000 "ts").risk_band = "Medium" := by
  have hA := c5_sevA
  have hB := c5_sevB
  have hg : groupBySource [specRowA, specRowB] = [("LeakCo", [specRowA, specRowB])] := by decide
  have htop : topTokens [specRowA.compromised_data, specRowB.compromised_data] =
      ["password, email", "phone"] := by decide
  have hmean : ((([5, 1] : List Int).sum : ℚ) / (([specRowA, specRowB] : List Row).length : ℚ))
      = ((3 : Int) : ℚ) := by
    norm_num
  have hr2 : round2 ((3 : Int) : ℚ) = ((3 : Int) : ℚ) := by
    rw [round2_intCast]
  have hband : risk_band ((3 : Int) : ℚ) = "Medium" := by
    norm_num [risk_band]
  unfold summarize
  rw [if_neg (by simp)]
  simp only [hg, List.map_cons, List.map_nil, hA, hB]
  rw [hmean]
  refine ⟨?_, by rw [hr2]; norm_num, by rw [hband]⟩
  simp only [hr2, hband, htop]
  norm_num [List.insertionSort, List.orderedInsert, dedupFirst, dedupFirstAux, specRowA, specRowB]
  decide

/-- C5 counterexample: on the spec's own worked example (same source, one
record with `"password, email"` aged half a year, one with `"phone"` aged
five years) the group's risk band is "Medium", not "High" as the claim
states — the group mean 3.0 lies below the "High" threshold 4. -/
theorem c5_group_band_is_medium_not_high :
    ((summarize [specRowA, specRowB] 2000 "ts").breaches.map (fun b => b.risk_band)
        = ["Medium"]) ∧
      ("Medium" : String) ≠ "High" := by
  refine ⟨?_, by decide⟩
  rw [c5_summary_eval.1]
  rfl

/-- C5 (amended): on the worked example the per-record severities are 5 and
1, the group's mean severity is 3.0 with risk band "Medium", and the
overall summary mean severity is 3.0 (band "Medium"). -/
theorem c5_amended_eval :
    severity_for_row specRowA 2000 = 5 ∧ severity_for_row specRowB 2000 = 1 ∧
      (summarize [specRowA, specRowB] 2000 "ts").breaches.map
          (fun b => (b.avg_severity, b.records)) = [(3, 2)] ∧
      (summarize [specRowA, specRowB] 2000 "ts").breaches.map (fun b => b.risk_band)
          = ["Medium"] ∧
      (summarize [specRowA, specRowB] 2000 "ts").risk_score = 3 ∧
      (summarize [specRowA, specRowB] 2000 "ts").risk_band = "Medium" := by
  refine ⟨c5_sevA, c5_sevB, ?_, ?_, c5_summary_eval.2.1, c5_summary_eval.2.2⟩
  · rw [c5_summary_eval.1]
    rfl
  · rw [c5_summary_eval.1]
    rfl

instance : IsTotal BreachAgg breachRel :=
  ⟨fun a b => by
    unfold breachRel
    rcases lt_trichotomy a.avg_severity b.avg_severity with h | h | h
    · exact Or.inr (Or.inl h)
    · rcases le_total b.records a.records with hr | hr
      · exact Or.inl (Or.inr ⟨h, hr⟩)
      · exact Or.inr (Or.inr ⟨h.symm, hr⟩)
    · exact Or.inl (Or.inl h)⟩

instance : IsTrans BreachAgg breachRel :=
  ⟨fun a b c hab hbc => by
    unfold breachRel at hab hbc ⊢
    rcases hab with h1 | ⟨h1, h1r⟩ <;> rcases hbc with h2 | ⟨h2, h2r⟩
    · exact Or.inl (h2.trans h1)
    · exact Or.inl (by rw [← h2]; exact h1)
    · exact Or.inl (by rw [h1]; exact h2)
    · exact Or.inr ⟨h1.trans h2, h2r.trans h1r⟩⟩

/-- C6: for every non-empty match set, the summary's `risk_score` is the
(2-decimal rounded) arithmetic mean of all per-record severities of the
match set — computed over the rows themselves, not as a mean of per-group
means — and the `breaches` list is pairwise ordered by descending
(reported) mean severity with ties broken by descending record count
(`breachRel`). -/
theorem summarize_overall_mean_and_ordering (df : List Row) (now : Int) (nowIso : String)
    (h : df ≠ []) :
    (summarize df now nowIso).risk_score
        = round2 (((df.map (fun r => severity_for_row r now)).sum : ℚ) / (df.length : ℚ)) ∧
      List.Pairwise breachRel (summarize df now nowIso).breaches := by
  unfold summarize
  rw [if_neg h]
  exact ⟨rfl, List.sorted_insertionSort breachRel _⟩

/-- The record used to instantiate the C6 theorem. -/
def c6Row : Row :=
  { email := "w@x.com"
    source := "Src"
    breach_date := none
    compromised_data := "email" }

/-- Witness for C6: the theorem applied to a concrete one-record match set. -/
theorem summarize_overall_mean_and_ordering_witness :
    (summarize [c6Row] 5 "t").risk_score
        = round2 ((([c6Row].map (fun r => severity_for_row r 5)).sum : ℚ)
            / (([c6Row] : List Row).length : ℚ)) ∧
      List.Pairwise breachRel (summarize [c6Row] 5 "t").breaches :=
  summarize_overall_mean_and_ordering [c6Row] 5 "t" (by simp)

/-- C7: when both selection modes are active, the match set `main` builds
is duplicate-free and contains exactly the rows selected by the domain
filter or by the email filter — the set union of the two filter results. -/
theorem select_matches_is_union (df : List Row) (d : String) (lines : List String) :
    (select_matches df (some d) (some lines)).Nodup ∧
      ∀ r : Row, r ∈ select_matches df (some d) (some lines) ↔
        (r ∈ filter_by_domain df d ∨ r ∈ filter_by_emails df (read_emails_file lines)) := by
  unfold select_matches
  exact ⟨nodup_dedupFirst _, fun r => by rw [mem_dedupFirst, List.mem_append]⟩

/-- Domain-filter test row that must be excluded: its email ends in
`notexample.com`, not in `@example.com`. -/
def c8RowExcluded : Row :=
  { email := "user@notexample.com"
    source := "S1"
    breach_date := none
    compromised_data := "" }

/-- Domain-filter test row that must be included despite its upper case. -/
def c8RowIncluded : Row :=
  { email := "USER@EXAMPLE.COM"
    source := "S2"
    breach_date := none
    compromised_data := "" }

/-- Domain-filter test row on a subdomain, excluded because only the exact
suffix `@example.com` matches. -/
def c8RowSubdomain : Row :=
  { email := "user@sub.example.com"
    source := "S3"
    breach_date := none
    compromised_data := "" }

/-- C8: `filter_by_domain` keeps exactly the records whose lower-cased
email ends with `"@" + domain.lower()` — an exact, case-insensitive suffix
match with no subdomain expansion; concretely, for domain `"example.com"`
it drops `user@notexample.com` and `user@sub.example.com` and keeps
`USER@EXAMPLE.COM`. -/
theorem filter_by_domain_suffix (df : List Row) (domain : String) (r : Row) :
    (r ∈ filter_by_domain df domain ↔
        r ∈ df ∧ endsWithL (lowerStr r.email.data) ('@' :: lowerStr domain.data) = true) ∧
      filter_by_domain [c8RowExcluded, c8RowIncluded, c8RowSubdomain] "example.com"
        = [c8RowIncluded] := by
  refine ⟨?_, by decide⟩
  simp [filter_by_domain, List.mem_filter]

/-- C9: the loader fails with `datasetNotFound` exactly when the dataset
path does not exist, fails with `schemaError` naming exactly the missing
required columns (compared case-insensitively) when any is absent, and
otherwise always succeeds regardless of the `breach_date` texts: every
date cell is coerced through the total `errors="coerce"` parse, with
`none` ("unknown") for empty or unparseable values, never an error. -/
theorem load_offline_dataset_errors (fs : Option RawCSV) (p : String → Option Int) :
    (load_offline_dataset fs p = .error .datasetNotFound ↔ fs = none) ∧
      (∀ miss, load_offline_dataset fs p = .error (.schemaError miss) ↔
        ∃ csv, fs = some csv ∧ miss = missingColumns csv ∧ missingColumns csv ≠ []) ∧
      (∀ csv, fs = some csv → missingColumns csv = [] →
        load_offline_dataset fs p = .ok (csv.rows.map (fun r =>
          { email := r.email
            source := r.source
            breach_date := p r.breach_date
            compromised_data := r.compromised_data
            password_hash := r.password_hash }))) := by
  cases fs with
  | none =>
    refine ⟨by simp [load_offline_dataset], fun miss => by simp [load_offline_dataset],
      fun csv hc => by simp at hc⟩
  | some csv =>
    by_cases hm : missingColumns csv = []
    · have hload : load_offline_dataset (some csv) p = .ok (csv.rows.map (fun r =>
          { email := r.email
            source := r.source
            breach_date := p r.breach_date
            compromised_data := r.compromised_data
            password_hash := r.password_hash })) := by
        simp [load_offline_dataset, hm]
      refine ⟨by simp [hload], fun miss => ?_, fun csv' hc hm' => ?_⟩
      · simp [hload, hm]
      · injection hc with h
        subst h
        exact hload
    · have hload : load_offline_dataset (some csv) p
          = .error (.schemaError (missingColumns csv)) := by
        simp [load_offline_dataset, hm]
      refine ⟨by simp [hload], fun miss => ?_, fun csv' hc hm' => ?_⟩
      · simp [hload, hm, eq_comm]
      · injection hc with h
        subst h
        exact absurd hm' hm

/-- A CSV whose header has the required columns in mixed case and whose
only row carries an unparseable date. -/
def c9CSV : RawCSV :=
  { columns := ["Email", "SOURCE", "breach_date", "Compromised_Data"]
    rows := [{ email := "a@x.com"
               source := "S"
               breach_date := "not-a-date"
               compromised_data := "email" }] }

/-- Witness for C9: loading a present CSV with all required columns and an
unparseable date succeeds, the bad date coerced to the unknown value. -/
theorem load_offline_dataset_errors_witness :
    load_offline_dataset (some c9CSV) (fun _ => none)
      = .ok [{ email := "a@x.com"
               source := "S"
               breach_date := none
               compromised_data := "email"
               password_hash := none }] :=
  (load_offline_dataset_errors (some c9CSV) (fun _ => none)).2.2 c9CSV rfl (by decide)

/-- C10: `read_emails_file` keeps each candidate exactly as stripped from
its line (original character case preserved) and deduplicates
case-sensitively — membership in the result requires the very string, the
result is duplicate-free, and an input holding both `A@x.com` and
`a@x.com` yields both, unmerged. -/
theorem read_emails_file_case_sensitive (lines : List String) (s : String) :
    (s ∈ read_emails_file lines ↔
        (∃ line ∈ lines, stripStr line = s) ∧ (!s.data.isEmpty && s.data.contains '@') = true) ∧
      (read_emails_file lines).Nodup ∧
      read_emails_file ["A@x.com", "a@x.com"] = ["A@x.com", "a@x.com"] := by
  refine ⟨?_, ?_, by decide⟩
  · simp only [read_emails_file, List.mem_insertionSort, mem_dedupFirst, List.mem_filter,
      List.mem_map]
  · simp only [read_emails_file]
    exact ((List.perm_insertionSort pyStrLe _).nodup_iff).mpr (nodup_dedupFirst _)
